import Mathlib

/-!
Verification of the command-execution and confirmation subsystem of the
cliz/cliq repository (xgzlucario/cliz).

The repository holds several near-duplicate implementations of the same
design:

* `src/src/cliz/shell.py` — `ShellToolkit` with string-valued results,
  tail truncation (`_truncate_output`) and an `Error: ` prefix on failure;
* `src/model.py` — `Tool` returning a structured `Result`
  (success flag plus both raw streams), with a `uv run` prefix option;
* `src/src/cliq/model.py` — `CommandLineTool` returning a structured
  `CommandResult`, same execution logic without the uv option;
* `src/src/cliz/main.py` and `src/main.py` — the tool mediators: agno
  `@tool` declarations, the `confirm_command_execution` pre-hook
  (confirmation gate) and the global `auto_mode` flag.

Interaction with the operating system (`subprocess.Popen` / `subprocess.run`)
is abstracted as a function from the assembled shell line (and working
directory) to a `LaunchOutcome`: either the process ran and reported an exit
code with its captured streams, or process creation itself raised an
exception carrying a message.  Terminal printing is a side effect with no
influence on any returned value; where a claim is about terminal reads the
read count is carried explicitly in the function's result.
-/

namespace Cliz

/-- The outcome the operating system reports for one launched shell line:
either the process ran to completion with an exit code and its two captured
streams, or process creation itself raised an exception with a message. -/
inductive LaunchOutcome where
  | ok (returncode : Int) (stdout stderr : String)
  | raised (message : String)
deriving DecidableEq, Repr

/-- A launcher that ignores the command line and working directory and
always reports the same outcome; used to instantiate theorems at one
concrete process behaviour. -/
def constLauncher (o : LaunchOutcome) : String → String → LaunchOutcome :=
  fun _ _ => o

/-- Python `str.isspace` on one character, for the ASCII whitespace
`str.strip` removes by default. -/
def pyIsSpace (c : Char) : Bool :=
  c = ' ' || c = '\t' || c = '\n' || c = '\r' || c = '\x0b' || c = '\x0c'

/-- Python `str.strip()` with no argument: drop leading and trailing
whitespace. -/
def pyStrip (s : String) : String :=
  String.mk (((s.toList.dropWhile pyIsSpace).reverse.dropWhile pyIsSpace).reverse)

/-- Python `str.lower` on one character, for the ASCII range the
confirmation prompt deals in. -/
def pyLowerChar (c : Char) : Char :=
  if 65 ≤ c.toNat ∧ c.toNat ≤ 90 then Char.ofNat (c.toNat + 32) else c

/-- Python `str.lower()` (ASCII model). -/
def pyLower (s : String) : String :=
  String.mk (s.toList.map pyLowerChar)

/-- Python list slice `xs[-t:]` for a natural `t`: the last `t` elements,
except that Python reads `xs[-0:]` as `xs[0:]`, the whole list. -/
def pySliceLast (xs : List String) (t : Nat) : List String :=
  if t = 0 then xs else xs.drop (xs.length - t)

/-- One hexadecimal digit, lower case, as Python prints it in `\xNN`. -/
def hexDigit (n : Nat) : Char :=
  if n < 10 then Char.ofNat (48 + n) else Char.ofNat (87 + n)

/-- Python `repr` escape of one character inside a string literal delimited
by the quote character `q`: backslash, newline, carriage return, tab and the
delimiter itself are escaped, other control characters become `\xNN`, and
every other character stands for itself. -/
def pyReprChar (q : Char) (c : Char) : String :=
  if c = '\\' then "\\\\"
  else if c = '\n' then "\\n"
  else if c = '\r' then "\\r"
  else if c = '\t' then "\\t"
  else if c = q then "\\" ++ String.singleton q
  else if c.toNat < 32 || c.toNat == 127 then
    "\\x" ++ String.singleton (hexDigit (c.toNat / 16))
          ++ String.singleton (hexDigit (c.toNat % 16))
  else String.singleton c

/-- Python `repr` of a string: delimited by single quotes, except that a
string holding a single quote and no double quote is delimited by double
quotes. -/
def pyReprStr (s : String) : String :=
  let useDouble : Bool := s.toList.contains '\'' && ! s.toList.contains '"'
  let q : Char := if useDouble then '"' else '\''
  String.singleton q ++ String.join (s.toList.map (pyReprChar q)) ++ String.singleton q

/-- Python `str`/`repr` of a list of strings, as an f-string renders the
list object itself: the element reprs between square brackets, separated by
comma and space. -/
def pyReprStrList (xs : List String) : String :=
  "[" ++ String.intercalate ", " (xs.map pyReprStr) ++ "]"

/-- `ShellToolkit._truncate_output` from src/src/cliz/shell.py lines 27-48.
Within the limit the lines are joined unchanged (`''.join(lines)`).  Over
the limit the source rebinds `lines` to its last `tail_lines` elements and
builds an f-string whose marker interpolates `len(lines)` — the length
AFTER the rebinding, i.e. the kept count — and whose body interpolates the
list object itself, i.e. its Python repr on one physical line, surrounded
by the triple-quoted literal's twelve-space indentation; `str.strip` is
applied to the whole. -/
def ShellToolkit._truncate_output (lines : List String) (tail_lines : Nat := 100) : String :=
  if lines.length ≤ tail_lines then String.join lines
  else
    let lines2 := pySliceLast lines tail_lines
    pyStrip ("...(truncated " ++ toString lines2.length ++ " lines)...\n            "
      ++ pyReprStrList lines2 ++ "\n            ")

/-- Splitting a text into lines each keeping its trailing newline, as
repeated `readline` calls deliver them; a final fragment without a newline
is kept as a last line.  Auxiliary recursion over the character list. -/
def splitLinesAux : List Char → List Char → List String → List String
  | [], [], acc => acc.reverse
  | [], cur, acc => (String.mk cur.reverse :: acc).reverse
  | c :: rest, cur, acc =>
    if c = '\n' then splitLinesAux rest [] (String.mk (c :: cur).reverse :: acc)
    else splitLinesAux rest (c :: cur) acc

/-- Lines of a captured stream as the streaming loop of
`ShellToolkit.execute` reads them. -/
def splitLinesKeepEnds (s : String) : List String :=
  splitLinesAux s.toList [] []

/-- How `ShellToolkit.execute` accumulates a captured stream into its line
buffer: streaming mode collects the stream line by line; buffered mode
(`process.communicate`) appends the whole captured text as a single element
when it is non-empty (`if stdout:` — Python truthiness) and nothing
otherwise. -/
def collectStream (stream_output : Bool) (s : String) : List String :=
  if stream_output then splitLinesKeepEnds s
  else if s = "" then [] else [s]

/-- `ShellToolkit.execute` from src/src/cliz/shell.py lines 51-134.  The
shell line is `f"{command} {args}"`; the launch is delegated to the
operating system (`launcher`, receiving the line and the working
directory).  On completion the exit code selects the reported stream: exit
code 0 returns the truncated stdout buffer, any other exit code returns the
truncated stderr buffer behind an `Error: ` prefix.  An exception at launch
returns `Error: ` and the exception's text (`f"Error: {str(e)}"`).  The
terminal echo of streaming mode is a side effect that never reaches the
returned string and is not modelled. -/
def ShellToolkit.execute (launcher : String → String → LaunchOutcome)
    (command args : String) (work_dir : String := ".")
    (stream_output : Bool := false) : String :=
  let full_command := command ++ " " ++ args
  match launcher full_command work_dir with
  | .ok returncode stdout stderr =>
      let output_lines := collectStream stream_output stdout
      let error_lines := collectStream stream_output stderr
      if returncode = 0 then ShellToolkit._truncate_output output_lines
      else "Error: " ++ ShellToolkit._truncate_output error_lines
  | .raised msg => "Error: " ++ msg

/-- The argument synthesis shared verbatim by every help implementation in
the repository: `args = f"{sub_command} {help_arg}" if sub_command else
help_arg`.  Python truthiness makes both `None` and the empty string fall
back to the bare help flag. -/
def synthHelpArgs (sub_command : Option String) (help_arg : String) : String :=
  match sub_command with
  | some s => if s = "" then help_arg else s ++ " " ++ help_arg
  | none => help_arg

/-- `ShellToolkit.help` from src/src/cliz/shell.py lines 13-25: synthesize
the argument string and delegate to `execute` with its default working
directory and buffered capture. -/
def ShellToolkit.help (launcher : String → String → LaunchOutcome)
    (command : String) (sub_command : Option String := none)
    (help_arg : String := "-h") : String :=
  ShellToolkit.execute launcher command (synthHelpArgs sub_command help_arg)

/-- The structured execution result of src/model.py (`Result`) and
src/src/cliq/model.py (`CommandResult`): a success flag and both captured
streams.  The two Python classes are field-for-field identical; one Lean
structure stands for both. -/
structure Result where
  success : Bool
  stdout : String
  stderr : String
deriving DecidableEq, Repr

/-- `Tool` from src/model.py: a configured command-line tool. -/
structure Tool where
  name : String
  description : String := ""
  help_arg : String := "-h"
  is_uv_tool : Bool := false
deriving DecidableEq, Repr

/-- `Tool.execute` from src/model.py lines 33-47: assemble the shell line
(behind `uv run` for uv tools), run it, and package the exit code test with
both raw streams — no truncation, no stream selection.  An exception at
launch becomes a failed result with empty stdout and the exception's text
as stderr. -/
def Tool.execute (t : Tool) (launcher : String → String → LaunchOutcome)
    (args : String) (work_dir : String := ".") : Result :=
  let command := t.name
  let full_command :=
    if t.is_uv_tool then "uv run " ++ command ++ " " ++ args
    else command ++ " " ++ args
  match launcher full_command work_dir with
  | .ok returncode stdout stderr => ⟨decide (returncode = 0), stdout, stderr⟩
  | .raised msg => ⟨false, "", msg⟩

/-- `Tool.help` from src/model.py lines 28-31: the shared argument
synthesis, then `execute` with its default working directory. -/
def Tool.help (t : Tool) (launcher : String → String → LaunchOutcome)
    (sub_command : Option String := none) : Result :=
  t.execute launcher (synthHelpArgs sub_command t.help_arg)

/-- `CommandLineTool` from src/src/cliq/model.py: like `Tool` without the
uv option. -/
structure CommandLineTool where
  name : String
  description : String := ""
  help_arg : String := "-h"
deriving DecidableEq, Repr

/-- `CommandLineTool.execute` from src/src/cliq/model.py lines 67-101: the
same execution logic as `Tool.execute` without the uv prefix. -/
def CommandLineTool.execute (t : CommandLineTool)
    (launcher : String → String → LaunchOutcome)
    (args : String) (work_dir : String := ".") : Result :=
  let command := t.name
  let full_command := command ++ " " ++ args
  match launcher full_command work_dir with
  | .ok returncode stdout stderr => ⟨decide (returncode = 0), stdout, stderr⟩
  | .raised msg => ⟨false, "", msg⟩

/-- `CommandLineTool.help` from src/src/cliq/model.py lines 55-65. -/
def CommandLineTool.help (t : CommandLineTool)
    (launcher : String → String → LaunchOutcome)
    (sub_command : Option String := none) : Result :=
  t.execute launcher (synthHelpArgs sub_command t.help_arg)

/-- Construction of the pydantic `CommandResult` model of
src/src/cliq/model.py lines 7-17: `success`, `stdout` and `stderr` are all
annotated fields without defaults, so every one is required and pydantic
raises `ValidationError` when a call site omits one.  Each argument is
`some` when the call site supplies that keyword; the error text stands for
pydantic's "validation error for CommandResult ... Field required" report,
naming the missing fields.  The call sites inside
`CommandLineTool.execute`/`help` supply all three fields, so only
constructions reached with a missing keyword can raise. -/
def pydanticCommandResult (success : Option Bool) (stdout stderr : Option String) :
    Except String Result :=
  match success, stdout, stderr with
  | some b, some o, some e => Except.ok ⟨b, o, e⟩
  | _, _, _ =>
      let missing := (if success.isNone then ["success"] else [])
        ++ (if stdout.isNone then ["stdout"] else [])
        ++ (if stderr.isNone then ["stderr"] else [])
      Except.error ("ValidationError: CommandResult missing required fields: "
        ++ String.intercalate ", " missing)

/-- `get_tool_help` from src/main.py lines 104-119 (the cliq variant): look
the requested command up in the configured tool list.  With no match, line
117 executes `CommandResult(success=False, stderr=f"Tool '{command}' not
found")` — WITHOUT the required `stdout` keyword — so the pydantic
constructor raises `ValidationError` (modelled as `Except.error`) instead
of returning the intended failure result; either way the operating system
is never consulted on this branch.  With a match, the matching tool's
`help` runs and returns its result normally (it supplies every field). -/
def cliq_get_tool_help (available_tools : List CommandLineTool)
    (launcher : String → String → LaunchOutcome)
    (command : String) (sub_command : Option String := none) : Except String Result :=
  match available_tools.find? (fun t => t.name == command) with
  | none => pydanticCommandResult (some false) none
      (some ("Tool '" ++ command ++ "' not found"))
  | some t => Except.ok (t.help launcher sub_command)

/-- The `StopAgentRun` exception `confirm_command_execution` raises on a
rejected confirmation, with the two message fields the source passes. -/
structure StopAgentRun where
  message : String
  agent_message : String
deriving DecidableEq, Repr

/-- A confirmation decision, §3 of the spec: `approved` when the pre-hook
returns normally, `rejected` when it raises `StopAgentRun`. -/
inductive Decision where
  | approved
  | rejected
deriving DecidableEq, Repr

/-- The terminal collaborator behind `rich.prompt.Prompt.ask` with default
`"y"`: an exactly empty submission yields the default, any other submission
is delivered as typed.  The prompt's own choice re-validation loop lives in
the rich library, outside the repository's code and outside this model. -/
def promptAsk (input : String) (dflt : String) : String :=
  if input = "" then dflt else input

/-- What one call of the confirmation gate did: whether it raised
`StopAgentRun`, how many terminal lines it read, and the assembled command
line it displayed (empty when it returned before displaying anything). -/
structure ConfirmTrace where
  stop : Option StopAgentRun
  terminal_reads : Nat
  displayed : String
deriving DecidableEq, Repr

/-- `confirm_command_execution` from src/src/cliz/main.py lines 67-103 (the
cliq variant in src/main.py lines 66-101 is identical but for the displayed
prefix).  With the process-wide `auto_mode` flag set it returns at once:
nothing displayed, nothing read, no exception.  Otherwise it displays the
assembled line `f"{command} {args}"`, performs exactly one prompt read,
normalises the response with `.strip().lower()`, and raises `StopAgentRun`
(modelled as `some`) exactly when the normalised response differs from
`"y"`. -/
def confirm_command_execution (auto_mode : Bool) (input : String)
    (command args : String) : ConfirmTrace :=
  if auto_mode then { stop := none, terminal_reads := 0, displayed := "" }
  else
    let full_command := command ++ " " ++ args
    let response := pyLower (pyStrip (promptAsk input "y"))
    if response ≠ "y" then
      { stop := some { message := "Command execution cancelled by user",
                       agent_message := "Execution stopped as permission was not granted." },
        terminal_reads := 1, displayed := full_command }
    else { stop := none, terminal_reads := 1, displayed := full_command }

/-- The gate's decision: `approved` when the pre-hook returns, `rejected`
when it raises. -/
def confirmDecision (auto_mode : Bool) (input : String)
    (command args : String) : Decision :=
  match (confirm_command_execution auto_mode input command args).stop with
  | some _ => .rejected
  | none => .approved

/-- The outcome the agent loop sees for one gated synchronous tool call:
either the pre-hook raised `StopAgentRun` and the call was cancelled with
the exception's two messages, or the tool body ran and produced its
string output. -/
inductive RunOutcome where
  | cancelled (message agent_message : String)
  | completed (output : String)
deriving DecidableEq, Repr

/-- The trace of one mediated tool call: its outcome plus whether the
confirmation gate ran, how many terminal lines were read, and whether the
delegated execution layer was reached. -/
structure MediatedRun where
  outcome : RunOutcome
  gate_invoked : Bool
  terminal_reads : Nat
  runner_invoked : Bool
deriving DecidableEq, Repr

/-- The agno mediation of `run_shell_command` from src/src/cliz/main.py
lines 121-133: `@tool(pre_hook=confirm_command_execution)` runs the
pre-hook first, whatever the arguments — there is no validation of
`command` anywhere on the path; a raised `StopAgentRun` skips the body and
reports the cancellation, otherwise the body runs.  The body's call,
`ShellToolkit().run(command, args, work_dir)`, names a method absent from
src/src/cliz/shell.py; the synchronous runner is therefore abstracted as
the function `runner` (spec §4.1). -/
def run_shell_command (auto_mode : Bool) (input : String)
    (runner : String → String → String → String)
    (command args : String) (work_dir : String := ".") : MediatedRun :=
  let c := confirm_command_execution auto_mode input command args
  match c.stop with
  | some e => ⟨.cancelled e.message e.agent_message, true, c.terminal_reads, false⟩
  | none => ⟨.completed (runner command args work_dir), true, c.terminal_reads, true⟩

/-- The agno mediation of `execute_command` from src/main.py lines 122-136
(the cliq variant): the same confirmation pre-hook, then a
`CommandLineTool` built from the requested command name — again with no
validation of any kind on `command` — executes the arguments. -/
inductive CommandRunOutcome where
  | cancelled (message agent_message : String)
  | completed (result : Result)
deriving DecidableEq, Repr

/-- The trace of one mediated `execute_command` call. -/
structure MediatedCommandRun where
  outcome : CommandRunOutcome
  gate_invoked : Bool
  terminal_reads : Nat
  runner_invoked : Bool
deriving DecidableEq, Repr

/-- `execute_command` from src/main.py lines 122-136, mediated. -/
def execute_command (auto_mode : Bool) (input : String)
    (launcher : String → String → LaunchOutcome)
    (command args : String) (work_dir : String := ".") : MediatedCommandRun :=
  let c := confirm_command_execution auto_mode input command args
  match c.stop with
  | some e => ⟨.cancelled e.message e.agent_message, true, c.terminal_reads, false⟩
  | none =>
      let tool : CommandLineTool := { name := command }
      ⟨.completed (tool.execute launcher args work_dir), true, c.terminal_reads, true⟩

/-- The agno mediation of `get_tool_help` from src/src/cliz/main.py lines
106-118: declared with plain `@tool`, no pre-hook, so no confirmation gate
runs and no terminal line is read; the body delegates to
`ShellToolkit.help`. -/
def get_tool_help (launcher : String → String → LaunchOutcome)
    (command : String) (sub_command : Option String := none)
    (help_arg : String := "-h") : MediatedRun :=
  ⟨.completed (ShellToolkit.help launcher command sub_command help_arg),
   false, 0, true⟩

/-- A background job handle, §3 of the spec. -/
structure BackgroundJobHandle where
  processId : Nat
  workingDirectory : String
  command : String
  outputFile : String
deriving DecidableEq, Repr

/-- The launcher's result: a handle on success, an error-shaped value with
a description on launch failure (spec §3, §4.3). -/
inductive BackgroundResult where
  | handle (h : BackgroundJobHandle)
  | error (description : String)
deriving DecidableEq, Repr

/-- What the launcher asks the operating system to do: start this shell
line in this directory, detached, with each standard stream redirected to
the named sink file. -/
structure SpawnRequest where
  commandLine : String
  workingDirectory : String
  stdoutSink : String
  stderrSink : String
deriving DecidableEq, Repr

/-- The operating system's immediate answer to a spawn request: the process
was created with this pid, or creation failed with this description.  No
exit status or completion information exists in this type — the launcher
returns as soon as creation is confirmed. -/
inductive SpawnOutcome where
  | spawned (pid : Nat)
  | failed (description : String)
deriving DecidableEq, Repr

/-- The durable state the launcher touches: a counter making temporary
names unique, and the set of files existing on disk. -/
structure FileSystem where
  tempCounter : Nat
  files : List String
deriving DecidableEq, Repr

/-- Modelled from the spec: allocation of the fresh, uniquely-named
temporary sink file of §4.3 (the allocating code is part of
`ShellToolkit.run_background`, which is called from src/src/cliz/main.py
line 148 but absent from src).  The allocated file exists on disk from this
point on and is never deleted by the launcher. -/
def freshTempFile (fs : FileSystem) : String × FileSystem :=
  let name := "/tmp/cliz-background-" ++ toString fs.tempCounter
  (name, { tempCounter := fs.tempCounter + 1, files := name :: fs.files })

/-- The spawn request `run_background` issues: the joined shell line, the
requested working directory, and both standard streams redirected into the
freshly allocated sink. -/
def backgroundRequest (fs : FileSystem) (command args work_dir : String) :
    SpawnRequest :=
  { commandLine := command ++ " " ++ args, workingDirectory := work_dir,
    stdoutSink := (freshTempFile fs).1, stderrSink := (freshTempFile fs).1 }

/-- Modelled from the spec: `ShellToolkit.run_background` (spec §4.3
Background Job Launcher), called from `run_shell_command_background` in
src/src/cliz/main.py but absent from src/src/cliz/shell.py.  A fresh
uniquely-named temporary file is allocated as the combined stdout+stderr
sink; the detached start is the operating system answering the spawn
request immediately with a pid or a failure description — no completion
information enters the model, so the result cannot depend on the child's
eventual behaviour.  On success the handle echoes the request and carries
the pid; on failure an error-shaped value with the description is returned
and nothing is raised. -/
def run_background (os : SpawnRequest → SpawnOutcome) (fs : FileSystem)
    (command args work_dir : String) : BackgroundResult × FileSystem :=
  let sink := (freshTempFile fs).1
  let fs2 := (freshTempFile fs).2
  match os (backgroundRequest fs command args work_dir) with
  | .spawned pid =>
      (.handle { processId := pid, workingDirectory := work_dir,
                 command := command ++ " " ++ args, outputFile := sink }, fs2)
  | .failed d => (.error d, fs2)

/-- The outcome of one gated background tool call. -/
inductive BackgroundRunOutcome where
  | cancelled (message agent_message : String)
  | completed (result : BackgroundResult)
deriving DecidableEq, Repr

/-- The trace of one mediated `run_shell_command_background` call. -/
structure MediatedBackgroundRun where
  outcome : BackgroundRunOutcome
  gate_invoked : Bool
  terminal_reads : Nat
  launcher_reached : Bool
deriving DecidableEq, Repr

/-- The agno mediation of `run_shell_command_background` from
src/src/cliz/main.py lines 136-148: the same confirmation pre-hook as the
synchronous variant — again no validation of `command` — then the
background launcher. -/
def run_shell_command_background (auto_mode : Bool) (input : String)
    (os : SpawnRequest → SpawnOutcome) (fs : FileSystem)
    (command args : String) (work_dir : String := ".") : MediatedBackgroundRun :=
  let c := confirm_command_execution auto_mode input command args
  match c.stop with
  | some e => ⟨.cancelled e.message e.agent_message, true, c.terminal_reads, false⟩
  | none => ⟨.completed (run_background os fs command args work_dir).1,
             true, c.terminal_reads, true⟩

/-- C3: when the process-wide automatic-mode flag is set, the confirmation
gate approves every command specification with no terminal interaction at
all — for every terminal input and every command/argument pair the gate
raises no `StopAgentRun`, reads zero terminal lines, displays nothing, and
the decision is `approved`; the whole trace is one constant, so the outcome
is independent of any terminal input. -/
theorem confirm_auto_mode_bypass (input command args : String) :
    confirm_command_execution true input command args
      = { stop := none, terminal_reads := 0, displayed := "" }
    ∧ confirmDecision true input command args = Decision.approved :=
  ⟨rfl, rfl⟩

/-- C5: with automatic mode disabled the gate reads exactly one terminal
line; an exactly empty submission falls back to the prompt's default `"y"`
and is approved, and otherwise the submitted line is trimmed of surrounding
whitespace and lowercased, mapping to `approved` exactly when the result is
`"y"` and to `rejected` for anything else. -/
theorem confirm_input_mapping (input command args : String) :
    (confirm_command_execution false input command args).terminal_reads = 1
    ∧ confirmDecision false "" command args = Decision.approved
    ∧ confirmDecision false input command args
        = (if input = "" then Decision.approved
           else if pyLower (pyStrip input) = "y" then Decision.approved
           else Decision.rejected) := by
  refine ⟨?_, ?_, ?_⟩
  · unfold confirm_command_execution
    simp only [Bool.false_eq_true, if_false]
    split <;> rfl
  · rfl
  · by_cases h : input = ""
    · subst h
      rfl
    · unfold confirmDecision confirm_command_execution promptAsk
      simp only [Bool.false_eq_true, if_false, if_neg h]
      by_cases hy : pyLower (pyStrip input) = "y"
      · simp [hy]
      · simp [hy]

/-- C2: with automatic mode disabled and the user answering `"n"`, the
mediated run-command reports the distinguished cancellation outcome — the
`cancelled` constructor carrying the `StopAgentRun` messages, which is
never equal to any `completed` result (a command failure would be a
completed run whose output is an `Error: ` string) — and the process runner
is never invoked: the trace records no runner invocation and the whole
result is identical whatever runner is supplied. -/
theorem run_shell_command_rejection
    (runner runner2 : String → String → String → String)
    (command args work_dir : String) :
    (run_shell_command false "n" runner command args work_dir).outcome
      = RunOutcome.cancelled "Command execution cancelled by user"
          "Execution stopped as permission was not granted."
    ∧ (run_shell_command false "n" runner command args work_dir).runner_invoked = false
    ∧ (∀ out : String,
        (run_shell_command false "n" runner command args work_dir).outcome
          ≠ RunOutcome.completed out)
    ∧ run_shell_command false "n" runner command args work_dir
        = run_shell_command false "n" runner2 command args work_dir := by
  have houtcome : (run_shell_command false "n" runner command args work_dir).outcome
      = RunOutcome.cancelled "Command execution cancelled by user"
          "Execution stopped as permission was not granted." := rfl
  refine ⟨houtcome, rfl, ?_, rfl⟩
  intro out h
  rw [houtcome] at h
  exact RunOutcome.noConfusion h

/-- C1 counterexample: at the invocation of a command that exits 0 with both
streams empty (the Unix `true`), the structured result is `success` with
empty stdout and empty stderr, so neither "succeeded with output populated"
nor "not succeeded with errorOutput populated" holds — the claimed "never
both empty" exclusivity fails on the code. -/
theorem execute_exclusivity_counterexample :
    Tool.execute { name := "true" } (constLauncher (.ok 0 "" "")) "" "."
      = { success := true, stdout := "", stderr := "" }
    ∧ ¬ (((Tool.execute { name := "true" } (constLauncher (.ok 0 "" "")) "" ".").success = true
          ∧ (Tool.execute { name := "true" } (constLauncher (.ok 0 "" "")) "" ".").stdout ≠ "")
        ∨ ((Tool.execute { name := "true" } (constLauncher (.ok 0 "" "")) "" ".").success = false
          ∧ (Tool.execute { name := "true" } (constLauncher (.ok 0 "" "")) "" ".").stderr ≠ "")) := by
  refine ⟨rfl, ?_⟩
  intro h
  rcases h with ⟨_, h2⟩ | ⟨h1, _⟩
  · exact h2 rfl
  · exact Bool.noConfusion h1

/-- C1 (amended): for every completed Process Runner invocation the result
is success exactly when the exit code is 0, and which field is the reported
content is determined solely by that flag — stdout on success, stderr on
failure (each truncated, and `Error: `-prefixed on failure, in the
string-result variant) — while the structured variant always carries both
raw streams, and the reported content may be empty. -/
theorem execute_success_failure_amended (t : Tool)
    (command args work_dir : String) (returncode : Int) (stdout stderr : String) :
    ((Tool.execute t (constLauncher (.ok returncode stdout stderr)) args work_dir).success = true
      ↔ returncode = 0)
    ∧ (Tool.execute t (constLauncher (.ok returncode stdout stderr)) args work_dir).stdout = stdout
    ∧ (Tool.execute t (constLauncher (.ok returncode stdout stderr)) args work_dir).stderr = stderr
    ∧ (if (Tool.execute t (constLauncher (.ok returncode stdout stderr)) args work_dir).success
       then (Tool.execute t (constLauncher (.ok returncode stdout stderr)) args work_dir).stdout
       else (Tool.execute t (constLauncher (.ok returncode stdout stderr)) args work_dir).stderr)
        = (if returncode = 0 then stdout else stderr)
    ∧ ShellToolkit.execute (constLauncher (.ok returncode stdout stderr)) command args work_dir false
        = (if returncode = 0
           then ShellToolkit._truncate_output (collectStream false stdout) 100
           else "Error: " ++ ShellToolkit._truncate_output (collectStream false stderr) 100) := by
  unfold Tool.execute ShellToolkit.execute constLauncher
  by_cases h : returncode = 0 <;> simp [h]

/-- C4: evaluation of `_truncate_output` at three lines with limit 2.  The
within-limit branch joins lines unchanged; the over-limit branch emits a
marker reporting the KEPT line count (2, computed after the list was
rebound) where the claim requires the omitted count (3 − 2 = 1), and
renders the two kept lines as the Python repr of the list object on one
physical line instead of the lines themselves. -/
theorem truncate_output_failing_eval :
    ShellToolkit._truncate_output ["a\n", "b\n"] 2 = "a\nb\n"
    ∧ ShellToolkit._truncate_output ["a\n", "b\n", "c\n"] 2
        = "...(truncated 2 lines)...\n            ['b\\n', 'c\\n']" := by
  constructor
  · rfl
  · rfl

/-- C6 (modelled from the spec, §4.3): when the operating system confirms
creation of the detached process with a (positive) pid, `run_background`
returns a handle carrying that positive pid, the echoed command line and
working directory, and an output file that exists on disk afterwards and to
which the spawn request redirected BOTH standard streams; when creation
fails, it returns the error-shaped value with the failure's description
instead of crashing.  No completion information exists in the model, so the
result never waits on, or depends on, the child's behaviour. -/
theorem run_background_contract (os : SpawnRequest → SpawnOutcome)
    (fs : FileSystem) (command args work_dir : String) (pid : Nat)
    (hspawn : os (backgroundRequest fs command args work_dir) = SpawnOutcome.spawned pid)
    (hpid : 0 < pid) :
    (∃ h : BackgroundJobHandle,
      (run_background os fs command args work_dir).1 = BackgroundResult.handle h
      ∧ 0 < h.processId
      ∧ h.processId = pid
      ∧ h.outputFile ∈ (run_background os fs command args work_dir).2.files
      ∧ (backgroundRequest fs command args work_dir).stdoutSink = h.outputFile
      ∧ (backgroundRequest fs command args work_dir).stderrSink = h.outputFile
      ∧ h.command = command ++ " " ++ args
      ∧ h.workingDirectory = work_dir)
    ∧ (∀ (os2 : SpawnRequest → SpawnOutcome) (d : String),
        os2 (backgroundRequest fs command args work_dir) = SpawnOutcome.failed d →
        (run_background os2 fs command args work_dir).1 = BackgroundResult.error d) := by
  constructor
  · refine ⟨{ processId := pid, workingDirectory := work_dir,
              command := command ++ " " ++ args,
              outputFile := (freshTempFile fs).1 }, ?_, hpid, rfl, ?_, rfl, rfl, rfl, rfl⟩
    · unfold run_background
      rw [hspawn]
    · unfold run_background
      rw [hspawn]
      exact List.mem_cons_self _ _
  · intro os2 d hfail
    unfold run_background
    rw [hfail]

/-- C6 witness: the contract applied at a concrete spawn that succeeds with
pid 1, on an empty file system, for the command line `sleep 5`. -/
theorem run_background_contract_witness :
    (∃ h : BackgroundJobHandle,
      (run_background (fun _ => SpawnOutcome.spawned 1) ⟨0, []⟩ "sleep" "5" ".").1
        = BackgroundResult.handle h
      ∧ 0 < h.processId
      ∧ h.processId = 1
      ∧ h.outputFile ∈ (run_background (fun _ => SpawnOutcome.spawned 1) ⟨0, []⟩ "sleep" "5" ".").2.files
      ∧ (backgroundRequest ⟨0, []⟩ "sleep" "5" ".").stdoutSink = h.outputFile
      ∧ (backgroundRequest ⟨0, []⟩ "sleep" "5" ".").stderrSink = h.outputFile
      ∧ h.command = "sleep" ++ " " ++ "5"
      ∧ h.workingDirectory = ".")
    ∧ (∀ (os2 : SpawnRequest → SpawnOutcome) (d : String),
        os2 (backgroundRequest ⟨0, []⟩ "sleep" "5" ".") = SpawnOutcome.failed d →
        (run_background os2 ⟨0, []⟩ "sleep" "5" ".").1 = BackgroundResult.error d) :=
  run_background_contract (fun _ => SpawnOutcome.spawned 1) ⟨0, []⟩ "sleep" "5" "." 1
    rfl (by decide)

/-- C7 counterexample: a run-command request with the empty command, with
automatic mode off and the user approving, invokes the confirmation gate
(one terminal line is read), reaches the process runner, and completes with
the runner's output — no failure result is returned and neither the gate
nor the runner is skipped, so the claimed empty-command validation does not
exist in the code. -/
theorem run_shell_command_empty_counterexample :
    (run_shell_command false "y" (fun _ _ _ => "ran") "" "ls -l" ".").gate_invoked = true
    ∧ (run_shell_command false "y" (fun _ _ _ => "ran") "" "ls -l" ".").terminal_reads = 1
    ∧ (run_shell_command false "y" (fun _ _ _ => "ran") "" "ls -l" ".").runner_invoked = true
    ∧ (run_shell_command false "y" (fun _ _ _ => "ran") "" "ls -l" ".").outcome
        = RunOutcome.completed "ran" :=
  ⟨rfl, rfl, rfl, rfl⟩

/-- C7 (amended): neither run-command variant nor the background variant
validates `command` at all — a request whose command is the empty string
invokes the confirmation gate exactly like any other request, and when the
gate approves, the delegated execution layer is invoked with the empty
command. -/
theorem run_shell_command_empty_amended (auto_mode : Bool) (input : String)
    (runner : String → String → String → String)
    (launcher : String → String → LaunchOutcome)
    (os : SpawnRequest → SpawnOutcome) (fs : FileSystem)
    (args work_dir : String)
    (happroved : confirmDecision auto_mode input "" args = Decision.approved) :
    (run_shell_command auto_mode input runner "" args work_dir).gate_invoked = true
    ∧ (run_shell_command auto_mode input runner "" args work_dir).outcome
        = RunOutcome.completed (runner "" args work_dir)
    ∧ (run_shell_command auto_mode input runner "" args work_dir).runner_invoked = true
    ∧ (run_shell_command_background auto_mode input os fs "" args work_dir).gate_invoked = true
    ∧ (run_shell_command_background auto_mode input os fs "" args work_dir).launcher_reached = true
    ∧ (run_shell_command_background auto_mode input os fs "" args work_dir).outcome
        = BackgroundRunOutcome.completed (run_background os fs "" args work_dir).1
    ∧ (execute_command auto_mode input launcher "" args work_dir).gate_invoked = true
    ∧ (execute_command auto_mode input launcher "" args work_dir).runner_invoked = true := by
  unfold confirmDecision at happroved
  unfold run_shell_command run_shell_command_background execute_command
  cases hstop : (confirm_command_execution auto_mode input "" args).stop with
  | some e =>
      rw [hstop] at happroved
      exact Decision.noConfusion happroved
  | none =>
      simp [hstop]

/-- C7 witness: the amended claim applied with automatic mode on (the gate
approves without input), a concrete runner, launcher and spawn model. -/
theorem run_shell_command_empty_amended_witness :
    (run_shell_command true "" (fun _ _ _ => "out") "" "-la" ".").gate_invoked = true
    ∧ (run_shell_command true "" (fun _ _ _ => "out") "" "-la" ".").outcome
        = RunOutcome.completed ((fun _ _ _ => "out" : String → String → String → String) "" "-la" ".")
    ∧ (run_shell_command true "" (fun _ _ _ => "out") "" "-la" ".").runner_invoked = true
    ∧ (run_shell_command_background true "" (fun _ => SpawnOutcome.spawned 1) ⟨0, []⟩ "" "-la" ".").gate_invoked = true
    ∧ (run_shell_command_background true "" (fun _ => SpawnOutcome.spawned 1) ⟨0, []⟩ "" "-la" ".").launcher_reached = true
    ∧ (run_shell_command_background true "" (fun _ => SpawnOutcome.spawned 1) ⟨0, []⟩ "" "-la" ".").outcome
        = BackgroundRunOutcome.completed (run_background (fun _ => SpawnOutcome.spawned 1) ⟨0, []⟩ "" "-la" ".").1
    ∧ (execute_command true "" (constLauncher (.ok 0 "" "")) "" "-la" ".").gate_invoked = true
    ∧ (execute_command true "" (constLauncher (.ok 0 "" "")) "" "-la" ".").runner_invoked = true :=
  run_shell_command_empty_amended true "" (fun _ _ _ => "out")
    (constLauncher (.ok 0 "" "")) (fun _ => SpawnOutcome.spawned 1) ⟨0, []⟩
    "-la" "." rfl

/-- C9: for every get-help request the synthesized argument string is
`"<subCommand> <helpFlag>"` when a (non-empty) sub-command is supplied and
the bare help flag otherwise, with `"-h"` as the flag's default; the
mediated call runs with no pre-hook, so the confirmation gate is never
invoked and no terminal line is read, and the body delegates the
synthesized arguments to the buffered runner. -/
theorem get_tool_help_synthesis (launcher : String → String → LaunchOutcome)
    (command help_arg s : String) (hs : s ≠ "") :
    synthHelpArgs (some s) help_arg = s ++ " " ++ help_arg
    ∧ synthHelpArgs none help_arg = help_arg
    ∧ (get_tool_help launcher command (some s) help_arg).gate_invoked = false
    ∧ (get_tool_help launcher command (some s) help_arg).terminal_reads = 0
    ∧ (get_tool_help launcher command none help_arg).gate_invoked = false
    ∧ (get_tool_help launcher command none help_arg).terminal_reads = 0
    ∧ (get_tool_help launcher command (some s) help_arg).outcome
        = RunOutcome.completed
            (ShellToolkit.execute launcher command (s ++ " " ++ help_arg) "." false)
    ∧ (get_tool_help launcher command none).outcome
        = RunOutcome.completed (ShellToolkit.execute launcher command "-h" "." false) := by
  refine ⟨?_, rfl, rfl, rfl, rfl, rfl, ?_, rfl⟩
  · simp [synthHelpArgs, hs]
  · simp [get_tool_help, ShellToolkit.help, synthHelpArgs, hs]

/-- C9 witness: the synthesis applied at the spec's end-to-end example D,
`get-help("git", subCommand="commit")`, yielding effective arguments
`"commit -h"`. -/
theorem get_tool_help_synthesis_witness :
    synthHelpArgs (some "commit") "-h" = "commit" ++ " " ++ "-h"
    ∧ synthHelpArgs none "-h" = "-h"
    ∧ (get_tool_help (constLauncher (.ok 0 "usage" "")) "git" (some "commit") "-h").gate_invoked = false
    ∧ (get_tool_help (constLauncher (.ok 0 "usage" "")) "git" (some "commit") "-h").terminal_reads = 0
    ∧ (get_tool_help (constLauncher (.ok 0 "usage" "")) "git" none "-h").gate_invoked = false
    ∧ (get_tool_help (constLauncher (.ok 0 "usage" "")) "git" none "-h").terminal_reads = 0
    ∧ (get_tool_help (constLauncher (.ok 0 "usage" "")) "git" (some "commit") "-h").outcome
        = RunOutcome.completed
            (ShellToolkit.execute (constLauncher (.ok 0 "usage" "")) "git" ("commit" ++ " " ++ "-h") "." false)
    ∧ (get_tool_help (constLauncher (.ok 0 "usage" "")) "git" none).outcome
        = RunOutcome.completed
            (ShellToolkit.execute (constLauncher (.ok 0 "usage" "")) "git" "-h" "." false) :=
  get_tool_help_synthesis (constLauncher (.ok 0 "usage" "")) "git" "-h" "commit"
    (by decide)

/-- C10: evaluation of the cliq `get_tool_help` at a configuration holding
only `git`, asked about `docker`.  The not-found branch raises pydantic
`ValidationError` — the required `stdout` field is not supplied at
src/main.py line 117 — instead of returning the claimed failure result
carrying the not-found message; "launches no process" does hold: the
outcome is identical whatever the operating-system launcher would have
answered, and it is never the error-free return of any result, failed or
not. -/
theorem get_tool_help_unknown_tool_crash :
    cliq_get_tool_help [{ name := "git" }] (constLauncher (.ok 0 "" "")) "docker" none
      = Except.error "ValidationError: CommandResult missing required fields: stdout"
    ∧ (∀ launcher2 : String → String → LaunchOutcome,
        cliq_get_tool_help [{ name := "git" }] (constLauncher (.ok 0 "" "")) "docker" none
          = cliq_get_tool_help [{ name := "git" }] launcher2 "docker" none)
    ∧ (∀ r : Result,
        cliq_get_tool_help [{ name := "git" }] (constLauncher (.ok 0 "" "")) "docker" none
          ≠ Except.ok r) := by
  refine ⟨rfl, fun _ => rfl, ?_⟩
  intro r h
  rw [show cliq_get_tool_help [{ name := "git" }] (constLauncher (.ok 0 "" "")) "docker" none
      = Except.error "ValidationError: CommandResult missing required fields: stdout" from rfl] at h
  exact Except.noConfusion h

end Cliz
